import Mathlib

/-
Verification of the Dimensional Warehouse Builder
(`scripts/transformation/load_warehouse.py`).

Dates are modelled as natural numbers counting days in the proleptic
Gregorian calendar with day 0 = 0000-03-01 (the era-based civil-calendar
algorithm's natural epoch).  Monetary amounts are rationals (SQL `numeric`
is exact decimal arithmetic).  Tables are lists of rows; the relational
store's per-statement snapshot semantics is embedded explicitly: a
statement's subqueries read the table state from before the statement.
-/

namespace Warehouse

/-- Civil-calendar conversion: day count (epoch 0000-03-01) to
(year, month, day), the standard era-based algorithm used by calendar
libraries (`pandas` timestamps agree with it on the Gregorian range). -/
def civilFromDays (z : Nat) : Nat × Nat × Nat :=
  let era := z / 146097
  let doe := z % 146097
  let yoe := (doe - doe / 1460 + doe / 36524 - doe / 146096) / 365
  let doy := doe - (365 * yoe + yoe / 4 - yoe / 100)
  let mp := (5 * doy + 2) / 153
  let d := doy - (153 * mp + 2) / 5 + 1
  let m := if mp < 10 then mp + 3 else mp - 9
  let y := yoe + era * 400 + (if m ≤ 2 then 1 else 0)
  (y, m, d)

/-- Civil-calendar conversion: (year, month, day) to day count with
epoch 0000-03-01. -/
def daysFromCivil (y m d : Nat) : Nat :=
  let yy := if m ≤ 2 then y - 1 else y
  let era := yy / 400
  let yoe := yy % 400
  let mp := if 3 ≤ m then m - 3 else m + 9
  let doy := (153 * mp + 2) / 5 + d - 1
  let doe := yoe * 365 + yoe / 4 - yoe / 100 + doy
  era * 146097 + doe

/-- `pandas` `Timestamp.dayofweek`: 0 = Monday .. 6 = Sunday.
Day 0 (0000-03-01) is a Wednesday, hence the offset 2. -/
def pandasDayOfWeek (z : Nat) : Nat := (z + 2) % 7

/-- `pandas` `Timestamp.day_name()`. -/
def dayNameOf (z : Nat) : String :=
  match pandasDayOfWeek z with
  | 0 => "Monday"
  | 1 => "Tuesday"
  | 2 => "Wednesday"
  | 3 => "Thursday"
  | 4 => "Friday"
  | 5 => "Saturday"
  | _ => "Sunday"

/-- `pandas` `Timestamp.month_name()`. -/
def monthNameOf (m : Nat) : String :=
  match m with
  | 1 => "January"
  | 2 => "February"
  | 3 => "March"
  | 4 => "April"
  | 5 => "May"
  | 6 => "June"
  | 7 => "July"
  | 8 => "August"
  | 9 => "September"
  | 10 => "October"
  | 11 => "November"
  | _ => "December"

/-- Minimum of a nonempty list given as head and tail. -/
def natMinFrom (x : Nat) (xs : List Nat) : Nat := xs.foldl Nat.min x

/-- Maximum of a nonempty list given as head and tail. -/
def natMaxFrom (x : Nat) (xs : List Nat) : Nat := xs.foldl Nat.max x

/-- ISO-8601 week of year (`Timestamp.isocalendar()[1]`): the week number
of the Thursday of `z`'s Monday-based week, counted from the ISO year's
January 1. -/
def isoWeekOfYear (z : Nat) : Nat :=
  let thursday := z + 3 - pandasDayOfWeek z
  let y := (civilFromDays thursday).1
  let jan1 := daysFromCivil y 1 1
  (thursday - jan1) / 7 + 1

/-- One row produced by `build_dim_date` before it is appended to the
store (the dataframe row of `load_warehouse.py` lines 71-83). -/
structure DateRow where
  date_id : Nat
  day_of_month : Nat
  day_of_week : Nat
  day_name : String
  month : Nat
  month_name : String
  quarter : Nat
  year : Nat
  week_of_year : Nat
  is_weekend : Bool
deriving DecidableEq, Repr

/-- The dataframe row `build_dim_date` computes for day `z`. -/
def mkDateRow (z : Nat) : DateRow :=
  { date_id := z
    day_of_month := (civilFromDays z).2.2
    day_of_week := pandasDayOfWeek z + 1
    day_name := dayNameOf z
    month := (civilFromDays z).2.1
    month_name := monthNameOf (civilFromDays z).2.1
    quarter := ((civilFromDays z).2.1 - 1) / 3 + 1
    year := (civilFromDays z).1
    week_of_year := isoWeekOfYear z
    is_weekend := decide (5 ≤ pandasDayOfWeek z) }

/-- `pd.date_range(start, end, freq='D')` inclusive on both ends, then one
`DateRow` per day: the list `build_dim_date` turns into a dataframe.
Empty when `e < s`, as `pd.date_range` is. -/
def buildDimDateRows (s e : Nat) : List DateRow :=
  (List.range (e + 1 - s)).map (fun i => mkDateRow (s + i))

/-- A row of `production.customers` (columns read by the warehouse
builder). -/
structure ProdCustomer where
  customer_id : String
  first_name : String
  last_name : String
  email : String
  phone : String
  city : String
  state : String
  country : String
  age_group : String
  registration_date : Nat
  is_active : Bool
deriving DecidableEq, Repr

/-- A row of `warehouse.dim_customers`. -/
structure DimCustomer where
  customer_sk : Nat
  customer_id : String
  first_name : String
  last_name : String
  email : String
  phone : String
  city : String
  state : String
  country : String
  age_group : String
  registration_date : Nat
  is_current : Bool
  effective_date : Nat
  end_date : Option Nat
deriving DecidableEq, Repr

/-- A row of `production.products` (columns read by the warehouse
builder). -/
structure ProdProduct where
  product_id : String
  product_name : String
  category : String
  sub_category : String
  price : Rat
  cost : Rat
  brand : String
  is_active : Bool
deriving DecidableEq, Repr

/-- A row of `warehouse.dim_products`. -/
structure DimProduct where
  product_sk : Nat
  product_id : String
  product_name : String
  category : String
  sub_category : String
  price : Rat
  cost : Rat
  brand : String
  is_current : Bool
  effective_date : Nat
  end_date : Option Nat
deriving DecidableEq, Repr

/-- A transactions row (columns read by the warehouse builder; used for
both `production.transactions` and `staging.transactions`). -/
structure TransactionRow where
  transaction_id : String
  customer_id : String
  transaction_date : Nat
  total_amount : Rat
  payment_method : String
  shipping_address : String
deriving DecidableEq, Repr

/-- A row of `production.transaction_items`. -/
structure ProdItem where
  item_id : String
  transaction_id : String
  product_id : String
  quantity : Nat
  unit_price : Rat
  discount_percentage : Rat
  line_total : Rat
deriving DecidableEq, Repr

/-- A row of `warehouse.dim_payment_method` (the serial surrogate key
`payment_method_sk` is assigned by the store on insert). -/
structure PaymentRow where
  payment_method_sk : Nat
  payment_method_id : String
  payment_method_name : String
  category : String
  is_active : Bool
deriving DecidableEq, Repr

/-- A stored row of `warehouse.dim_date`: the store's serial surrogate key
plus the dataframe columns. -/
structure WhDateRow where
  date_sk : Nat
  data : DateRow
deriving DecidableEq, Repr

/-- A row of `warehouse.fact_sales`. -/
structure FactRow where
  transaction_id : String
  item_id : String
  customer_sk : Nat
  product_sk : Nat
  date_sk : Nat
  payment_method_sk : Option Nat
  quantity : Nat
  unit_price : Rat
  discount_percentage : Rat
  line_total : Rat
  transaction_total : Rat
  shipping_address : String
deriving DecidableEq, Repr

/-- A row of `warehouse.agg_daily_sales`. -/
structure AggDailyRow where
  date_sk : Nat
  total_sales : Rat
  total_units_sold : Nat
  transaction_count : Nat
  customer_count : Nat
  avg_transaction_value : Rat
deriving DecidableEq, Repr

/-- A row of `warehouse.agg_product_sales`. -/
structure AggProductRow where
  product_sk : Nat
  total_sales : Rat
  total_units_sold : Nat
  transaction_count : Nat
  avg_discount : Rat
deriving DecidableEq, Repr

/-- A row of `warehouse.agg_customer_lifetime`. -/
structure AggCustomerRow where
  customer_sk : Nat
  total_spent : Rat
  total_units_purchased : Nat
  transaction_count : Nat
  first_purchase_date : Nat
  last_purchase_date : Nat
  avg_transaction_value : Rat
deriving DecidableEq, Repr

/-- The relational store: the production/staging inputs and the warehouse
tables, plus the serial-key counters of the warehouse tables. -/
structure DB where
  prodCustomers : List ProdCustomer
  prodProducts : List ProdProduct
  prodTransactions : List TransactionRow
  prodItems : List ProdItem
  stgTransactions : List TransactionRow
  dimCustomers : List DimCustomer
  dimProducts : List DimProduct
  dimDate : List WhDateRow
  dimPayment : List PaymentRow
  factSales : List FactRow
  aggDaily : List AggDailyRow
  aggProduct : List AggProductRow
  aggCustomer : List AggCustomerRow
  nextCustomerSk : Nat
  nextProductSk : Nat
  nextDateSk : Nat
  nextPaymentSk : Nat
deriving DecidableEq, Repr

/-- The dimension row `build_dim_customers` inserts for an active
production customer: copied attributes, `is_current = TRUE`,
`effective_date = CURRENT_DATE`, `end_date = NULL`. -/
def mkDimCustomer (today sk : Nat) (c : ProdCustomer) : DimCustomer :=
  { customer_sk := sk
    customer_id := c.customer_id
    first_name := c.first_name
    last_name := c.last_name
    email := c.email
    phone := c.phone
    city := c.city
    state := c.state
    country := c.country
    age_group := c.age_group
    registration_date := c.registration_date
    is_current := true
    effective_date := today
    end_date := none }

/-- Modelled from the spec: the DDL of `warehouse.dim_customers` is not
under `src/`, so the unique constraint behind the statement's
`ON CONFLICT DO NOTHING` is taken from the spec, which states that
insertion is conditional on the absence of the business key
(`customer_id`).  The loop realizes the `INSERT ... SELECT ... ON
CONFLICT DO NOTHING` of `build_dim_customers`: each candidate row is
skipped exactly when a row with its business key is already present,
including rows inserted earlier in the same statement.  Returns the new
table, the next surrogate key, and the statement's rowcount. -/
def insertDimCustomers (today : Nat) (prods : List ProdCustomer)
    (dims : List DimCustomer) (sk : Nat) : List DimCustomer × Nat × Nat :=
  match prods with
  | [] => (dims, sk, 0)
  | c :: rest =>
    if c.is_active && !(dims.any (fun r => r.customer_id == c.customer_id)) then
      let p := insertDimCustomers today rest (dims ++ [mkDimCustomer today sk c]) (sk + 1)
      (p.1, p.2.1, p.2.2 + 1)
    else
      insertDimCustomers today rest dims sk

/-- `build_dim_customers` (lines 23-40): insert every active production
customer whose business key is absent, as a current version. -/
def buildDimCustomers (today : Nat) (db : DB) : DB × Nat :=
  let p := insertDimCustomers today db.prodCustomers db.dimCustomers db.nextCustomerSk
  ({ db with dimCustomers := p.1, nextCustomerSk := p.2.1 }, p.2.2)

/-- The dimension row `build_dim_products` inserts for an active
production product. -/
def mkDimProduct (today sk : Nat) (c : ProdProduct) : DimProduct :=
  { product_sk := sk
    product_id := c.product_id
    product_name := c.product_name
    category := c.category
    sub_category := c.sub_category
    price := c.price
    cost := c.cost
    brand := c.brand
    is_current := true
    effective_date := today
    end_date := none }

/-- Modelled from the spec: as for customers, the unique constraint behind
`ON CONFLICT DO NOTHING` in `build_dim_products` is the business key
(`product_id`), per the spec's insert-if-absent description. -/
def insertDimProducts (today : Nat) (prods : List ProdProduct)
    (dims : List DimProduct) (sk : Nat) : List DimProduct × Nat × Nat :=
  match prods with
  | [] => (dims, sk, 0)
  | c :: rest =>
    if c.is_active && !(dims.any (fun r => r.product_id == c.product_id)) then
      let p := insertDimProducts today rest (dims ++ [mkDimProduct today sk c]) (sk + 1)
      (p.1, p.2.1, p.2.2 + 1)
    else
      insertDimProducts today rest dims sk

/-- `build_dim_products` (lines 43-60). -/
def buildDimProducts (today : Nat) (db : DB) : DB × Nat :=
  let p := insertDimProducts today db.prodProducts db.dimProducts db.nextProductSk
  ({ db with dimProducts := p.1, nextProductSk := p.2.1 }, p.2.2)

/-- `build_dim_date`'s store append (`df.to_sql(..., if_exists='append')`,
lines 85-95): the dataframe rows are appended to `warehouse.dim_date`
with serial surrogate keys; returns `len(df)`. -/
def buildDimDateDb (lo hi : Nat) (db : DB) : DB × Nat :=
  let rows := buildDimDateRows lo hi
  let whRows := rows.enum.map (fun p => WhDateRow.mk (db.nextDateSk + p.1) p.2)
  ({ db with dimDate := db.dimDate ++ whRows, nextDateSk := db.nextDateSk + rows.length },
    rows.length)

/-- `LOWER(REPLACE(payment_method, ' ', '_'))` (line 106), computed per
character: `REPLACE` turns each space into an underscore, `LOWER` then
lower-cases every (other) character. -/
def normalizePayment (label : String) : String :=
  String.mk (label.data.map (fun c => if c = ' ' then '_' else c.toLower))

/-- The `CASE` expression of `build_dim_payment_method` (lines 108-114). -/
def paymentCategory (label : String) : String :=
  if label == "Credit Card" || label == "Debit Card" then "Card"
  else if label == "UPI" then "Digital"
  else if label == "Net Banking" then "Digital"
  else if label == "Cash on Delivery" then "Cash"
  else "Other"

/-- The payment-method dimension row derived from a raw label. -/
def mkPaymentRow (sk : Nat) (label : String) : PaymentRow :=
  { payment_method_sk := sk
    payment_method_id := normalizePayment label
    payment_method_name := label
    category := paymentCategory label
    is_active := true }

/-- The insert loop of `build_dim_payment_method`: one candidate row per
distinct raw label, skipped when its `payment_method_id` is already
present (`ON CONFLICT (payment_method_id) DO NOTHING`), including ids
inserted earlier in the same statement. -/
def insertPaymentRows (labels : List String) (dims : List PaymentRow)
    (sk : Nat) : List PaymentRow × Nat × Nat :=
  match labels with
  | [] => (dims, sk, 0)
  | l :: rest =>
    if dims.any (fun r => r.payment_method_id == normalizePayment l) then
      insertPaymentRows rest dims sk
    else
      let p := insertPaymentRows rest (dims ++ [mkPaymentRow sk l]) (sk + 1)
      (p.1, p.2.1, p.2.2 + 1)

/-- `build_dim_payment_method` (lines 98-120): `SELECT DISTINCT` over
`staging.transactions` payment-method labels, then conditional insert. -/
def buildDimPaymentMethod (db : DB) : DB × Nat :=
  let labels := (db.stgTransactions.map (fun t => t.payment_method)).dedup
  let p := insertPaymentRows labels db.dimPayment db.nextPaymentSk
  ({ db with dimPayment := p.1, nextPaymentSk := p.2.1 }, p.2.2)

/-- The `item_id`s present in `warehouse.fact_sales` before the insert
statement runs (the snapshot its `NOT EXISTS` subquery reads). -/
def factItemIds (db : DB) : List String := db.factSales.map (fun fr => fr.item_id)

/-- The fact row assembled by `build_fact_sales`' SELECT list for one
joined combination. -/
def mkFactRow (t : TransactionRow) (ti : ProdItem) (dc : DimCustomer)
    (dp : DimProduct) (dd : WhDateRow) (pm : Option Nat) : FactRow :=
  { transaction_id := t.transaction_id
    item_id := ti.item_id
    customer_sk := dc.customer_sk
    product_sk := dp.product_sk
    date_sk := dd.date_sk
    payment_method_sk := pm
    quantity := ti.quantity
    unit_price := ti.unit_price
    discount_percentage := ti.discount_percentage
    line_total := ti.line_total
    transaction_total := t.total_amount
    shipping_address := t.shipping_address }

/-- The payment-method rows matching a transaction's normalized label
(the `LEFT JOIN` of lines 155-156). -/
def pmMatches (db : DB) (t : TransactionRow) : List PaymentRow :=
  db.dimPayment.filter (fun r => r.payment_method_id == normalizePayment t.payment_method)

/-- The joined rows `build_fact_sales` produces for one production line
item: `INNER JOIN` to its transaction, to the *current* customer and
product dimension rows, to the matching date row, and `LEFT JOIN` to the
payment-method dimension (an absent match leaves the key `NULL`). -/
def joinRowsForItem (db : DB) (ti : ProdItem) : List FactRow :=
  (db.prodTransactions.filter (fun t => t.transaction_id == ti.transaction_id)).flatMap
    (fun t =>
      (db.dimCustomers.filter (fun r => r.customer_id == t.customer_id && r.is_current)).flatMap
        (fun dc =>
          (db.dimProducts.filter (fun r => r.product_id == ti.product_id && r.is_current)).flatMap
            (fun dp =>
              (db.dimDate.filter (fun r => r.data.date_id == t.transaction_date)).flatMap
                (fun dd =>
                  let pms := pmMatches db t
                  if pms.isEmpty then [mkFactRow t ti dc dp dd none]
                  else pms.map (fun pmr => mkFactRow t ti dc dp dd (some pmr.payment_method_sk))))))

/-- One line item's contribution to the fact insert: empty when the
`NOT EXISTS` subquery (lines 157-160) finds its `item_id` in the fact
table as it stood before the statement, otherwise the joined rows. -/
def itemFactContribution (db : DB) (ti : ProdItem) : List FactRow :=
  if ti.item_id ∈ factItemIds db then [] else joinRowsForItem db ti

/-- All rows the fact insert statement appends. -/
def newFactSalesRows (db : DB) : List FactRow :=
  db.prodItems.flatMap (itemFactContribution db)

/-- `build_fact_sales` (lines 123-163). -/
def buildFactSales (db : DB) : DB × Nat :=
  let rows := newFactSalesRows db
  ({ db with factSales := db.factSales ++ rows }, rows.length)

/-- Minimum of a list, taking 0 on the empty list (groups are nonempty,
so the default is never consulted). -/
def natMinList (l : List Nat) : Nat :=
  match l with
  | [] => 0
  | x :: xs => natMinFrom x xs

/-- Maximum of a list, taking 0 on the empty list. -/
def natMaxList (l : List Nat) : Nat :=
  match l with
  | [] => 0
  | x :: xs => natMaxFrom x xs

/-- The aggregate row `build_agg_daily_sales` computes for one
`date_sk` group of the fact table. -/
def mkAggDailyRow (facts : List FactRow) (sk : Nat) : AggDailyRow :=
  let g := facts.filter (fun fr => fr.date_sk == sk)
  { date_sk := sk
    total_sales := (g.map (fun fr => fr.line_total)).sum
    total_units_sold := (g.map (fun fr => fr.quantity)).sum
    transaction_count := ((g.map (fun fr => fr.transaction_id)).dedup).length
    customer_count := ((g.map (fun fr => fr.customer_sk)).dedup).length
    avg_transaction_value := (g.map (fun fr => fr.transaction_total)).sum / (g.length : Rat) }

/-- Modelled from the spec: the DDL of the aggregate tables is not under
`src/`; per the spec each aggregate insert is skip-on-conflict by
grouping key, so the conflict target of `ON CONFLICT DO NOTHING` is the
grouping key column.  Rows whose grouping key already holds an aggregate
row are skipped; the rest are computed from the current fact table. -/
def newAggDailyRows (db : DB) : List AggDailyRow :=
  let sks := (db.factSales.map (fun fr => fr.date_sk)).dedup
  let fresh := sks.filter (fun sk => !(db.aggDaily.any (fun r => r.date_sk == sk)))
  fresh.map (mkAggDailyRow db.factSales)

/-- `build_agg_daily_sales` (lines 166-186). -/
def buildAggDailySales (db : DB) : DB × Nat :=
  let rows := newAggDailyRows db
  ({ db with aggDaily := db.aggDaily ++ rows }, rows.length)

/-- The aggregate row `build_agg_product_sales` computes for one
`product_sk` group: `SUM(line_total)`, `SUM(quantity)`,
`COUNT(DISTINCT transaction_id)`, `AVG(discount_percentage)`. -/
def mkAggProductRow (facts : List FactRow) (sk : Nat) : AggProductRow :=
  let g := facts.filter (fun fr => fr.product_sk == sk)
  { product_sk := sk
    total_sales := (g.map (fun fr => fr.line_total)).sum
    total_units_sold := (g.map (fun fr => fr.quantity)).sum
    transaction_count := ((g.map (fun fr => fr.transaction_id)).dedup).length
    avg_discount := (g.map (fun fr => fr.discount_percentage)).sum / (g.length : Rat) }

/-- Modelled from the spec: conflict target is the grouping key
(`product_sk`), as for the daily aggregate. -/
def newAggProductRows (db : DB) : List AggProductRow :=
  let sks := (db.factSales.map (fun fr => fr.product_sk)).dedup
  let fresh := sks.filter (fun sk => !(db.aggProduct.any (fun r => r.product_sk == sk)))
  fresh.map (mkAggProductRow db.factSales)

/-- `build_agg_product_sales` (lines 189-207). -/
def buildAggProductSales (db : DB) : DB × Nat :=
  let rows := newAggProductRows db
  ({ db with aggProduct := db.aggProduct ++ rows }, rows.length)

/-- The fact table joined to `dim_date` on `date_sk`, the relation
`build_agg_customer_lifetime` groups (lines 210-232). -/
def factDateJoin (db : DB) : List (FactRow × WhDateRow) :=
  db.factSales.flatMap (fun fr =>
    (db.dimDate.filter (fun dd => dd.date_sk == fr.date_sk)).map (fun dd => (fr, dd)))

/-- The aggregate row `build_agg_customer_lifetime` computes for one
`customer_sk` group of the joined relation. -/
def mkAggCustomerRow (joined : List (FactRow × WhDateRow)) (sk : Nat) : AggCustomerRow :=
  let g := joined.filter (fun p => p.1.customer_sk == sk)
  { customer_sk := sk
    total_spent := (g.map (fun p => p.1.line_total)).sum
    total_units_purchased := (g.map (fun p => p.1.quantity)).sum
    transaction_count := ((g.map (fun p => p.1.transaction_id)).dedup).length
    first_purchase_date := natMinList (g.map (fun p => p.2.data.date_id))
    last_purchase_date := natMaxList (g.map (fun p => p.2.data.date_id))
    avg_transaction_value := (g.map (fun p => p.1.transaction_total)).sum / (g.length : Rat) }

/-- Modelled from the spec: conflict target is the grouping key
(`customer_sk`). -/
def newAggCustomerRows (db : DB) : List AggCustomerRow :=
  let joined := factDateJoin db
  let sks := (joined.map (fun p => p.1.customer_sk)).dedup
  let fresh := sks.filter (fun sk => !(db.aggCustomer.any (fun r => r.customer_sk == sk)))
  fresh.map (mkAggCustomerRow joined)

/-- `build_agg_customer_lifetime` (lines 210-232). -/
def buildAggCustomerLifetime (db : DB) : DB × Nat :=
  let rows := newAggCustomerRows db
  ({ db with aggCustomer := db.aggCustomer ++ rows }, rows.length)

/-- Business keys of inactive production customers (the `IN` subquery of
`apply_scd_type2`, lines 252-255). -/
def inactiveCustomerIds (db : DB) : List String :=
  (db.prodCustomers.filter (fun c => c.is_active == false)).map (fun c => c.customer_id)

/-- The per-row effect of the `UPDATE` in `apply_scd_type2` for
`dim_customers`: a current row whose business key is inactive in
production is retired with `end_date = CURRENT_DATE - INTERVAL '1 day'`. -/
def retireCustomerRow (today : Nat) (inactive : List String) (r : DimCustomer) : DimCustomer :=
  if r.is_current && inactive.contains r.customer_id then
    { r with is_current := false, end_date := some (today - 1) }
  else r

/-- `apply_scd_type2("dim_customers", ...)` (lines 246-258); the returned
count is the `UPDATE`'s rowcount (`records_updated`). -/
def applyScdCustomers (today : Nat) (db : DB) : DB × Nat :=
  let inact := inactiveCustomerIds db
  ({ db with dimCustomers := db.dimCustomers.map (retireCustomerRow today inact) },
    db.dimCustomers.countP (fun r => r.is_current && inact.contains r.customer_id))

/-- Business keys of inactive production products (lines 265-268). -/
def inactiveProductIds (db : DB) : List String :=
  (db.prodProducts.filter (fun c => c.is_active == false)).map (fun c => c.product_id)

/-- The per-row effect of the `UPDATE` in `apply_scd_type2` for
`dim_products`. -/
def retireProductRow (today : Nat) (inactive : List String) (r : DimProduct) : DimProduct :=
  if r.is_current && inactive.contains r.product_id then
    { r with is_current := false, end_date := some (today - 1) }
  else r

/-- `apply_scd_type2("dim_products", ...)` (lines 260-271). -/
def applyScdProducts (today : Nat) (db : DB) : DB × Nat :=
  let inact := inactiveProductIds db
  ({ db with dimProducts := db.dimProducts.map (retireProductRow today inact) },
    db.dimProducts.countP (fun r => r.is_current && inact.contains r.product_id))

/-- `SELECT MIN(transaction_date), MAX(transaction_date) FROM
production.transactions` (lines 298-301): `none` models the SQL `NULL`
pair an empty table yields. -/
def minMaxDates (ts : List TransactionRow) : Option (Nat × Nat) :=
  match ts.map (fun t => t.transaction_date) with
  | [] => none
  | d :: rest => some (natMinFrom d rest, natMaxFrom d rest)

/-- The steps `main` executes, in source order. -/
inductive Step where
  | dimCustomersStep
  | dimProductsStep
  | dimDateStep
  | dimPaymentStep
  | factStep
  | aggDailyStep
  | aggProductStep
  | aggCustomerStep
  | scdCustomersStep
  | scdProductsStep
deriving DecidableEq, Repr

/-- How a build run can fail: an injected store failure at some step, or
the date-bound parse failure.  When the transactions table is empty the
MIN/MAX read yields SQL `NULL`s, `str(None)` produces an unparseable
bound, and `pd.date_range` inside `build_dim_date` raises — there is no
`EmptyRangeError` class in the source and no skip path. -/
inductive BuildErr where
  | injected (s : Step)
  | dateParse
deriving DecidableEq, Repr

/-- `main` (lines 276-337) with an optional injected store failure: the
steps run in source order inside `with engine.begin()`; each step's
rowcount is recorded in the build log.  An injected failure at a step
raises there; any raise aborts the run before the log is written. -/
def runMainWith (fail : Option Step) (today : Nat) (db : DB) :
    Except BuildErr (DB × List (Step × Nat)) :=
  if fail = some Step.dimCustomersStep then .error (.injected Step.dimCustomersStep) else
  let p1 := buildDimCustomers today db
  if fail = some Step.dimProductsStep then .error (.injected Step.dimProductsStep) else
  let p2 := buildDimProducts today p1.1
  match minMaxDates p2.1.prodTransactions with
  | none => .error .dateParse
  | some mm =>
    if fail = some Step.dimDateStep then .error (.injected Step.dimDateStep) else
    let p3 := buildDimDateDb mm.1 mm.2 p2.1
    if fail = some Step.dimPaymentStep then .error (.injected Step.dimPaymentStep) else
    let p4 := buildDimPaymentMethod p3.1
    if fail = some Step.factStep then .error (.injected Step.factStep) else
    let p5 := buildFactSales p4.1
    if fail = some Step.aggDailyStep then .error (.injected Step.aggDailyStep) else
    let p6 := buildAggDailySales p5.1
    if fail = some Step.aggProductStep then .error (.injected Step.aggProductStep) else
    let p7 := buildAggProductSales p6.1
    if fail = some Step.aggCustomerStep then .error (.injected Step.aggCustomerStep) else
    let p8 := buildAggCustomerLifetime p7.1
    if fail = some Step.scdCustomersStep then .error (.injected Step.scdCustomersStep) else
    let p9 := applyScdCustomers today p8.1
    if fail = some Step.scdProductsStep then .error (.injected Step.scdProductsStep) else
    let p10 := applyScdProducts today p9.1
    .ok (p10.1,
      [(Step.dimCustomersStep, p1.2), (Step.dimProductsStep, p2.2),
       (Step.dimDateStep, p3.2), (Step.dimPaymentStep, p4.2),
       (Step.factStep, p5.2), (Step.aggDailyStep, p6.2),
       (Step.aggProductStep, p7.2), (Step.aggCustomerStep, p8.2),
       (Step.scdCustomersStep, p9.2), (Step.scdProductsStep, p10.2)])

/-- `main` without injected failures. -/
def runMain (today : Nat) (db : DB) : Except BuildErr (DB × List (Step × Nat)) :=
  runMainWith none today db

/-- The committed store state after a build attempt: `with engine.begin()`
commits the final state on success and rolls every effect back on any
raise. -/
def commitMain (fail : Option Step) (today : Nat) (db : DB) : DB :=
  match runMainWith fail today db with
  | .ok p => p.1
  | .error _ => db

/-- A warehouse build operation touching the SCD dimensions, each against
its own production snapshot (source data may change between builds):
initial population / re-run of a dimension build, or an SCD retirement
pass. -/
inductive DimOp where
  | bCust (today : Nat) (prod : List ProdCustomer)
  | bProd (today : Nat) (prod : List ProdProduct)
  | sCust (today : Nat) (prod : List ProdCustomer)
  | sProd (today : Nat) (prod : List ProdProduct)

/-- Apply one dimension-touching operation to the store. -/
def applyDimOp (db : DB) (op : DimOp) : DB :=
  match op with
  | .bCust t p => (buildDimCustomers t { db with prodCustomers := p }).1
  | .bProd t p => (buildDimProducts t { db with prodProducts := p }).1
  | .sCust t p => (applyScdCustomers t { db with prodCustomers := p }).1
  | .sProd t p => (applyScdProducts t { db with prodProducts := p }).1

/-- At most one `is_current = true` customer dimension row per business
key. -/
def atMostOneCurrentCustomer (dims : List DimCustomer) : Prop :=
  ∀ k : String, dims.countP (fun r => r.customer_id == k && r.is_current) ≤ 1

/-- At most one `is_current = true` product dimension row per business
key. -/
def atMostOneCurrentProduct (dims : List DimProduct) : Prop :=
  ∀ k : String, dims.countP (fun r => r.product_id == k && r.is_current) ≤ 1

/-- The execution order of `main`'s steps as recorded by a successful
build log. -/
def mainStepOrder : List Step :=
  [Step.dimCustomersStep, Step.dimProductsStep, Step.dimDateStep,
   Step.dimPaymentStep, Step.factStep, Step.aggDailyStep,
   Step.aggProductStep, Step.aggCustomerStep, Step.scdCustomersStep,
   Step.scdProductsStep]

/-- A store with empty tables (serial counters start at 1). -/
def emptyDB : DB :=
  { prodCustomers := []
    prodProducts := []
    prodTransactions := []
    prodItems := []
    stgTransactions := []
    dimCustomers := []
    dimProducts := []
    dimDate := []
    dimPayment := []
    factSales := []
    aggDaily := []
    aggProduct := []
    aggCustomer := []
    nextCustomerSk := 1
    nextProductSk := 1
    nextDateSk := 1
    nextPaymentSk := 1 }

/-- Fixture: an active production customer. -/
def sampleCustomer : ProdCustomer :=
  { customer_id := "CUST001", first_name := "John", last_name := "Doe"
    email := "john@example.com", phone := "123", city := "NYC", state := "NY"
    country := "USA", age_group := "25-35"
    registration_date := daysFromCivil 2023 1 1, is_active := true }

/-- Fixture: an active production product. -/
def sampleProduct : ProdProduct :=
  { product_id := "PROD001", product_name := "Widget", category := "Toys"
    sub_category := "Blocks", price := 15, cost := 4, brand := "Acme"
    is_active := true }

/-- Fixture: a transaction on 2024-01-01 paid by net banking. -/
def sampleTxn1 : TransactionRow :=
  { transaction_id := "TXN001", customer_id := "CUST001"
    transaction_date := daysFromCivil 2024 1 1, total_amount := 50
    payment_method := "Net Banking", shipping_address := "1 Main St" }

/-- Fixture: a second transaction on the same day, cash on delivery. -/
def sampleTxn2 : TransactionRow :=
  { transaction_id := "TXN002", customer_id := "CUST001"
    transaction_date := daysFromCivil 2024 1 1, total_amount := 20
    payment_method := "Cash on Delivery", shipping_address := "2 Main St" }

/-- Fixture: a line item of `TXN001`. -/
def sampleItem1 : ProdItem :=
  { item_id := "ITEM001", transaction_id := "TXN001", product_id := "PROD001"
    quantity := 2, unit_price := 15, discount_percentage := 0, line_total := 30 }

/-- Fixture: a line item of `TXN002` that reuses the `item_id` of
`sampleItem1`. -/
def sampleItem2 : ProdItem :=
  { item_id := "ITEM001", transaction_id := "TXN002", product_id := "PROD001"
    quantity := 1, unit_price := 20, discount_percentage := 0, line_total := 20 }

/-- Fixture: a store holding one customer, product, transaction and line
item, enough for a full successful build. -/
def fullBuildDB : DB :=
  { emptyDB with
    prodCustomers := [sampleCustomer]
    prodProducts := [sampleProduct]
    prodTransactions := [sampleTxn1]
    prodItems := [sampleItem1]
    stgTransactions := [sampleTxn1] }

/-- Fixture: the current customer dimension version of `sampleCustomer`. -/
def currentDimCustomer : DimCustomer := mkDimCustomer (daysFromCivil 2024 1 1) 1 sampleCustomer

/-- Fixture: the current product dimension version of `sampleProduct`. -/
def currentDimProduct : DimProduct := mkDimProduct (daysFromCivil 2024 1 1) 1 sampleProduct

/-- Fixture: the stored date dimension row for 2024-01-01. -/
def dateRow2024 : WhDateRow := { date_sk := 1, data := mkDateRow (daysFromCivil 2024 1 1) }

/-- Fixture: a store whose dimensions are built and whose production data
holds two line items from different transactions sharing one `item_id`. -/
def sharedItemDB : DB :=
  { emptyDB with
    prodTransactions := [sampleTxn1, sampleTxn2]
    prodItems := [sampleItem1, sampleItem2]
    dimCustomers := [currentDimCustomer]
    dimProducts := [currentDimProduct]
    dimDate := [dateRow2024]
    nextCustomerSk := 2
    nextProductSk := 2
    nextDateSk := 2 }

/-- Fixture: a fact row as loaded from `sampleItem1`. -/
def factRowA : FactRow :=
  { transaction_id := "TXN001", item_id := "ITEM001", customer_sk := 1
    product_sk := 1, date_sk := 1, payment_method_sk := none, quantity := 2
    unit_price := 15, discount_percentage := 0, line_total := 30
    transaction_total := 50, shipping_address := "1 Main St" }

/-- Fixture: a fact row for the same product from a distinct transaction. -/
def factRowB : FactRow :=
  { transaction_id := "TXN002", item_id := "ITEM002", customer_sk := 1
    product_sk := 1, date_sk := 1, payment_method_sk := none, quantity := 1
    unit_price := 20, discount_percentage := 0, line_total := 20
    transaction_total := 20, shipping_address := "2 Main St" }

/-- Fixture: a store whose fact table holds exactly the two rows for
product surrogate key 1. -/
def aggFactDB : DB := { emptyDB with factSales := [factRowA, factRowB] }

/-- Fixture: the product aggregate row computed for surrogate key 1 over
`aggFactDB`. -/
def aggRowP1 : AggProductRow := mkAggProductRow aggFactDB.factSales 1

/-- Fixture: `sampleProduct` marked inactive in production. -/
def retiredProduct : ProdProduct := { sampleProduct with is_active := false }

/-- Fixture: built dimensions with the product now inactive in
production. -/
def scdDB : DB :=
  { emptyDB with
    prodCustomers := [sampleCustomer]
    prodProducts := [retiredProduct]
    prodTransactions := [sampleTxn1]
    prodItems := [sampleItem1]
    dimCustomers := [currentDimCustomer]
    dimProducts := [currentDimProduct]
    dimDate := [dateRow2024]
    nextCustomerSk := 2
    nextProductSk := 2
    nextDateSk := 2 }

/-- Fixture: a store that already loaded `factRowA` and still exposes the
line item of the other transaction with the shared `item_id`. -/
def loadedFactDB : DB := { sharedItemDB with factSales := [factRowA] }

/-- The build report of a successful run (the per-step rowcounts `main`
writes to `warehouse_build_report.json`), `none` when the run aborted. -/
def mainLog (today : Nat) (db : DB) : Option (List (Step × Nat)) :=
  match runMainWith none today db with
  | .ok p => some p.2
  | .error _ => none

/-- The build report of the successful build over `fullBuildDB`. -/
def fullBuildLog : List (Step × Nat) :=
  (mainLog (daysFromCivil 2024 1 2) fullBuildDB).getD []

/-- Fixture: a store whose staging transactions carry two raw
payment-method labels. -/
def paymentDB : DB := { emptyDB with stgTransactions := [sampleTxn1, sampleTxn2] }

/-- Fixture: a sequence of builds against changing production snapshots —
initial population, retirement of the deactivated entities, and re-runs. -/
def sampleOps : List DimOp :=
  [DimOp.bCust 739191 [sampleCustomer],
   DimOp.bProd 739191 [sampleProduct],
   DimOp.sCust 739192 [{ sampleCustomer with is_active := false }],
   DimOp.sProd 739192 [retiredProduct],
   DimOp.bCust 739193 [sampleCustomer],
   DimOp.bProd 739194 [sampleProduct]]

@[simp] theorem buildDimCustomers_prodTransactions (t : Nat) (db : DB) :
    (buildDimCustomers t db).1.prodTransactions = db.prodTransactions := rfl

@[simp] theorem buildDimProducts_prodTransactions (t : Nat) (db : DB) :
    (buildDimProducts t db).1.prodTransactions = db.prodTransactions := rfl

@[simp] theorem buildDimCustomers_dimProducts (t : Nat) (db : DB) :
    (buildDimCustomers t db).1.dimProducts = db.dimProducts := rfl

@[simp] theorem buildDimProducts_dimCustomers (t : Nat) (db : DB) :
    (buildDimProducts t db).1.dimCustomers = db.dimCustomers := rfl

@[simp] theorem buildFactSales_factSales (db : DB) :
    (buildFactSales db).1.factSales = db.factSales ++ newFactSalesRows db := rfl

@[simp] theorem buildFactSales_prodItems (db : DB) :
    (buildFactSales db).1.prodItems = db.prodItems := rfl

@[simp] theorem buildFactSales_rowcount (db : DB) :
    (buildFactSales db).2 = (newFactSalesRows db).length := rfl

@[simp] theorem applyScdCustomers_dimCustomers (t : Nat) (db : DB) :
    (applyScdCustomers t db).1.dimCustomers
      = db.dimCustomers.map (retireCustomerRow t (inactiveCustomerIds db)) := rfl

@[simp] theorem applyScdProducts_dimProducts (t : Nat) (db : DB) :
    (applyScdProducts t db).1.dimProducts
      = db.dimProducts.map (retireProductRow t (inactiveProductIds db)) := rfl

@[simp] theorem applyScdCustomers_dimProducts (t : Nat) (db : DB) :
    (applyScdCustomers t db).1.dimProducts = db.dimProducts := rfl

@[simp] theorem applyScdProducts_dimCustomers (t : Nat) (db : DB) :
    (applyScdProducts t db).1.dimCustomers = db.dimCustomers := rfl

@[simp] theorem buildDimCustomers_dimCustomers (t : Nat) (db : DB) :
    (buildDimCustomers t db).1.dimCustomers
      = (insertDimCustomers t db.prodCustomers db.dimCustomers db.nextCustomerSk).1 := rfl

@[simp] theorem buildDimProducts_dimProducts (t : Nat) (db : DB) :
    (buildDimProducts t db).1.dimProducts
      = (insertDimProducts t db.prodProducts db.dimProducts db.nextProductSk).1 := rfl

/-- Claim C2: the whole warehouse build runs inside one transaction
(`with engine.begin()`): a store failure injected at any step makes the
run raise instead of returning a report, and the committed store state is
exactly the pre-build state — in particular zero new fact rows and zero
new aggregate rows are committed when the failure strikes fact loading. -/
theorem warehouse_build_atomic : ∀ (today : Nat) (db : DB) (s : Step),
    (runMainWith (some s) today db).isOk = false
    ∧ commitMain (some s) today db = db
    ∧ (commitMain (some s) today db).factSales = db.factSales
    ∧ (commitMain (some s) today db).aggProduct = db.aggProduct
    ∧ (commitMain (some s) today db).aggDaily = db.aggDaily
    ∧ (commitMain (some s) today db).aggCustomer = db.aggCustomer := by
  intro t db s
  have key : ∃ e, runMainWith (some s) t db = .error e := by
    rcases hm : minMaxDates db.prodTransactions with _ | mm <;>
      cases s <;> simp [runMainWith, hm]
  rcases key with ⟨e, he⟩
  have hc : commitMain (some s) t db = db := by
    simp [commitMain, he]
  exact ⟨by simp [he, Except.isOk, Except.toBool], hc, by rw [hc], by rw [hc],
    by rw [hc], by rw [hc]⟩

/-- Claim C3 (amended): when `production.transactions` is empty, the
MIN/MAX date read yields `NULL`s and the date-dimension step raises a
date-parse error (there is no `EmptyRangeError` and no skip path): the
whole build aborts with no report, and the committed state — in
particular the date dimension — is untouched. -/
theorem empty_transactions_aborts : ∀ (today : Nat) (db : DB),
    db.prodTransactions = [] →
    runMainWith none today db = .error .dateParse
    ∧ mainLog today db = none
    ∧ commitMain none today db = db := by
  intro t db h
  have key : runMainWith none t db = .error .dateParse := by
    simp [runMainWith, minMaxDates, h]
  exact ⟨key, by simp [mainLog, key], by simp [commitMain, key]⟩

/-- Claim C3, witness: the empty store has no transactions, and its build
aborts with the date-parse error, committing nothing. -/
theorem empty_transactions_aborts_witness :
    runMainWith none 739200 emptyDB = .error .dateParse
    ∧ mainLog 739200 emptyDB = none
    ∧ commitMain none 739200 emptyDB = emptyDB :=
  empty_transactions_aborts 739200 emptyDB rfl

/-- Claim C3, counterexample to the claim as stated: with an empty
transactions table the build does not succeed with a skipped,
zero-row-reported date step — it aborts, yielding no report at all. -/
theorem empty_transactions_not_skipped_cex :
    (runMain 739200 emptyDB).isOk = false ∧ mainLog 739200 emptyDB = none := by
  constructor
  · decide
  · decide

/-- Claim C4 (amended): a successful build always executes its steps in
the fixed source order — customer, product, date and payment dimension
builds, then the fact load, then the three aggregate builds, and the SCD
retirement passes last, after fact loading and aggregation (not before
fact loading, as claimed). -/
theorem build_step_order : ∀ (today : Nat) (db : DB) (log : List (Step × Nat)),
    mainLog today db = some log → log.map Prod.fst = mainStepOrder := by
  intro t db log h
  rcases hm : minMaxDates db.prodTransactions with _ | mm <;>
    simp [mainLog, runMainWith, hm] at h
  rw [← h]
  simp [mainStepOrder]

/-- Claim C4, witness: the successful build over the sample store yields
exactly that step order. -/
theorem build_step_order_witness : fullBuildLog.map Prod.fst = mainStepOrder :=
  build_step_order (daysFromCivil 2024 1 2) fullBuildDB fullBuildLog (by decide)

/-- Claim C4, counterexample to the claim as stated: in the recorded
execution order of a successful build, the fact-load step precedes both
SCD retirement passes, so the SCD Dimension Builder's retirement work
does not complete before the Fact Loader runs. -/
theorem scd_after_fact_cex :
    (mainLog (daysFromCivil 2024 1 2) fullBuildDB).map (fun l => l.map Prod.fst)
      = some mainStepOrder
    ∧ mainStepOrder.indexOf Step.factStep < mainStepOrder.indexOf Step.scdCustomersStep
    ∧ mainStepOrder.indexOf Step.factStep < mainStepOrder.indexOf Step.scdProductsStep := by
  refine ⟨by decide, by decide, by decide⟩

theorem countP_append_new_customer (dims : List DimCustomer) (r : DimCustomer)
    (h : atMostOneCurrentCustomer dims)
    (hfresh : dims.any (fun x => x.customer_id == r.customer_id) = false) :
    atMostOneCurrentCustomer (dims ++ [r]) := by
  intro k
  rw [List.countP_append]
  by_cases hk : r.customer_id = k
  · have h0 : dims.countP (fun x => x.customer_id == k && x.is_current) = 0 := by
      rw [List.countP_eq_zero]
      intro x hx
      have hx2 := List.any_eq_false.mp hfresh x hx
      simp only [hk] at hx2
      simp [hx2]
    have h1 : (List.countP (fun x => x.customer_id == k && x.is_current) [r]) ≤ 1 := by
      simpa using List.countP_le_length (l := [r])
        (p := fun x => x.customer_id == k && x.is_current)
    omega
  · have h1 : (List.countP (fun x => x.customer_id == k && x.is_current) [r]) = 0 := by
      simp [List.countP_cons, hk]
    have h2 := h k
    omega

theorem insertDimCustomers_preserves (t : Nat) (prods : List ProdCustomer) :
    ∀ (dims : List DimCustomer) (sk : Nat), atMostOneCurrentCustomer dims →
    atMostOneCurrentCustomer (insertDimCustomers t prods dims sk).1 := by
  induction prods with
  | nil => intro dims sk h; simpa [insertDimCustomers] using h
  | cons c rest ih =>
    intro dims sk h
    by_cases hc : (c.is_active && !(dims.any (fun r => r.customer_id == c.customer_id))) = true
    · have hfresh : dims.any (fun r => r.customer_id == c.customer_id) = false := by
        have hca := hc
        simp only [Bool.and_eq_true, Bool.not_eq_true'] at hca
        exact hca.2
      rw [insertDimCustomers]
      simp only [hc, if_true]
      exact ih (dims ++ [mkDimCustomer t sk c]) (sk + 1)
        (countP_append_new_customer dims (mkDimCustomer t sk c) h hfresh)
    · rw [insertDimCustomers]
      simp only [Bool.not_eq_true] at hc
      simp only [hc, if_false]
      exact ih dims sk h

theorem retire_preserves_customer (t : Nat) (db : DB)
    (h : atMostOneCurrentCustomer db.dimCustomers) :
    atMostOneCurrentCustomer (applyScdCustomers t db).1.dimCustomers := by
  intro k
  rw [applyScdCustomers_dimCustomers, List.countP_map]
  refine le_trans (List.countP_mono_left ?_) (h k)
  intro r hr hp
  by_cases hc : r.is_current = true ∧ r.customer_id ∈ inactiveCustomerIds db
  · exfalso
    simp [retireCustomerRow, hc] at hp
  · simp [retireCustomerRow, hc] at hp
    simpa using hp

theorem countP_append_new_product (dims : List DimProduct) (r : DimProduct)
    (h : atMostOneCurrentProduct dims)
    (hfresh : dims.any (fun x => x.product_id == r.product_id) = false) :
    atMostOneCurrentProduct (dims ++ [r]) := by
  intro k
  rw [List.countP_append]
  by_cases hk : r.product_id = k
  · have h0 : dims.countP (fun x => x.product_id == k && x.is_current) = 0 := by
      rw [List.countP_eq_zero]
      intro x hx
      have hx2 := List.any_eq_false.mp hfresh x hx
      simp only [hk] at hx2
      simp [hx2]
    have h1 : (List.countP (fun x => x.product_id == k && x.is_current) [r]) ≤ 1 := by
      simpa using List.countP_le_length (l := [r])
        (p := fun x => x.product_id == k && x.is_current)
    omega
  · have h1 : (List.countP (fun x => x.product_id == k && x.is_current) [r]) = 0 := by
      simp [List.countP_cons, hk]
    have h2 := h k
    omega

theorem insertDimProducts_preserves (t : Nat) (prods : List ProdProduct) :
    ∀ (dims : List DimProduct) (sk : Nat), atMostOneCurrentProduct dims →
    atMostOneCurrentProduct (insertDimProducts t prods dims sk).1 := by
  induction prods with
  | nil => intro dims sk h; simpa [insertDimProducts] using h
  | cons c rest ih =>
    intro dims sk h
    by_cases hc : (c.is_active && !(dims.any (fun r => r.product_id == c.product_id))) = true
    · have hfresh : dims.any (fun r => r.product_id == c.product_id) = false := by
        have hca := hc
        simp only [Bool.and_eq_true, Bool.not_eq_true'] at hca
        exact hca.2
      rw [insertDimProducts]
      simp only [hc, if_true]
      exact ih (dims ++ [mkDimProduct t sk c]) (sk + 1)
        (countP_append_new_product dims (mkDimProduct t sk c) h hfresh)
    · rw [insertDimProducts]
      simp only [Bool.not_eq_true] at hc
      simp only [hc, if_false]
      exact ih dims sk h

theorem retire_preserves_product (t : Nat) (db : DB)
    (h : atMostOneCurrentProduct db.dimProducts) :
    atMostOneCurrentProduct (applyScdProducts t db).1.dimProducts := by
  intro k
  rw [applyScdProducts_dimProducts, List.countP_map]
  refine le_trans (List.countP_mono_left ?_) (h k)
  intro r hr hp
  by_cases hc : r.is_current = true ∧ r.product_id ∈ inactiveProductIds db
  · exfalso
    simp [retireProductRow, hc] at hp
  · simp [retireProductRow, hc] at hp
    simpa using hp

/-- Claim C1: after any sequence of warehouse builds — initial
population, re-runs, and SCD retirements, each against its own production
snapshot, in any order — every business key has at most one
`is_current = true` row in the customer dimension and at most one in the
product dimension. -/
theorem at_most_one_current_invariant : ∀ (ops : List DimOp) (db : DB),
    atMostOneCurrentCustomer db.dimCustomers →
    atMostOneCurrentProduct db.dimProducts →
    atMostOneCurrentCustomer (ops.foldl applyDimOp db).dimCustomers
    ∧ atMostOneCurrentProduct (ops.foldl applyDimOp db).dimProducts := by
  intro ops
  induction ops with
  | nil => intro db h1 h2; exact ⟨h1, h2⟩
  | cons op rest ih =>
    intro db h1 h2
    rw [List.foldl_cons]
    apply ih
    · cases op with
      | bCust t p => exact insertDimCustomers_preserves t p db.dimCustomers db.nextCustomerSk h1
      | bProd t p => exact h1
      | sCust t p => exact retire_preserves_customer t { db with prodCustomers := p } h1
      | sProd t p => exact h1
    · cases op with
      | bCust t p => exact h2
      | bProd t p => exact insertDimProducts_preserves t p db.dimProducts db.nextProductSk h2
      | sCust t p => exact h2
      | sProd t p => exact retire_preserves_product t { db with prodProducts := p } h2

/-- Claim C1, witness: the sample sequence of builds and retirements over
the empty store keeps both dimensions with at most one current row per
business key. -/
theorem at_most_one_current_invariant_witness :
    atMostOneCurrentCustomer (sampleOps.foldl applyDimOp emptyDB).dimCustomers
    ∧ atMostOneCurrentProduct (sampleOps.foldl applyDimOp emptyDB).dimProducts :=
  at_most_one_current_invariant sampleOps emptyDB
    (by intro k; simp [emptyDB]) (by intro k; simp [emptyDB])

theorem joinRowsForItem_buildFactSales (db : DB) (ti : ProdItem) :
    joinRowsForItem (buildFactSales db).1 ti = joinRowsForItem db ti := rfl

theorem mem_joinRowsForItem_item_id {db : DB} {ti : ProdItem} {fr : FactRow}
    (h : fr ∈ joinRowsForItem db ti) : fr.item_id = ti.item_id := by
  simp only [joinRowsForItem, List.mem_flatMap] at h
  obtain ⟨t, ht, h⟩ := h
  obtain ⟨dc, hdc, h⟩ := h
  obtain ⟨dp, hdp, h⟩ := h
  obtain ⟨dd, hdd, h⟩ := h
  by_cases hp : (pmMatches db t).isEmpty
  · simp only [hp, if_true, List.mem_singleton] at h
    rw [h]
    rfl
  · simp only [hp, if_false, List.mem_map, Bool.false_eq_true] at h
    obtain ⟨pmr, hpmr, h⟩ := h
    rw [← h]
    rfl

theorem factItemIds_buildFactSales (db : DB) :
    factItemIds (buildFactSales db).1
      = factItemIds db ++ (newFactSalesRows db).map (fun fr => fr.item_id) := by
  simp [factItemIds, buildFactSales]

/-- Claim C5: running the fact loader a second time with unchanged
production data and unchanged dimension tables appends zero rows and
leaves the fact table exactly as after the first run. -/
theorem fact_loader_idempotent : ∀ db : DB,
    (buildFactSales (buildFactSales db).1).1.factSales = (buildFactSales db).1.factSales
    ∧ (buildFactSales (buildFactSales db).1).2 = 0 := by
  intro db
  have key : newFactSalesRows (buildFactSales db).1 = [] := by
    have hitems : (buildFactSales db).1.prodItems = db.prodItems := rfl
    rw [newFactSalesRows, hitems, List.flatMap_eq_nil_iff]
    intro ti hti
    by_cases h0 : ti.item_id ∈ factItemIds db
    · have h1 : ti.item_id ∈ factItemIds (buildFactSales db).1 := by
        rw [factItemIds_buildFactSales]
        exact List.mem_append_left _ h0
      simp [itemFactContribution, h1]
    · rcases hj : joinRowsForItem db ti with _ | ⟨fr, rest⟩
      · simp [itemFactContribution, joinRowsForItem_buildFactSales, hj]
      · have hfr : fr ∈ newFactSalesRows db := by
          rw [newFactSalesRows]
          refine List.mem_flatMap.mpr ⟨ti, hti, ?_⟩
          simp [itemFactContribution, h0, hj]
        have hid : fr.item_id = ti.item_id :=
          mem_joinRowsForItem_item_id (by rw [hj]; exact List.mem_cons_self _ _)
        have h1 : ti.item_id ∈ factItemIds (buildFactSales db).1 := by
          rw [factItemIds_buildFactSales]
          refine List.mem_append_right _ ?_
          exact List.mem_map.mpr ⟨fr, hfr, hid⟩
        simp [itemFactContribution, h1]
  refine ⟨?_, ?_⟩
  · rw [buildFactSales_factSales (buildFactSales db).1, key, List.append_nil]
  · rw [buildFactSales_rowcount, key]
    rfl

/-- Claim C6: a current dimension row (customer or product) whose
business key maps to an inactive production row is retired by the SCD
pass with `is_current = false` and `end_date = today - 1`; and when a
product business key has no current dimension version, the fact loader's
appended rows all originate from line items of other products — that
key's line items are excluded. -/
theorem retirement_and_fact_exclusion : ∀ (db : DB) (today : Nat),
    (∀ r ∈ db.dimCustomers, r.is_current = true →
      r.customer_id ∈ inactiveCustomerIds db →
      ({ r with is_current := false, end_date := some (today - 1) } : DimCustomer)
        ∈ (applyScdCustomers today db).1.dimCustomers)
    ∧ (∀ r ∈ db.dimProducts, r.is_current = true →
      r.product_id ∈ inactiveProductIds db →
      ({ r with is_current := false, end_date := some (today - 1) } : DimProduct)
        ∈ (applyScdProducts today db).1.dimProducts)
    ∧ (∀ k : String, (∀ r ∈ db.dimProducts, r.product_id = k → r.is_current = false) →
      ∀ fr ∈ newFactSalesRows db,
        ∃ ti ∈ db.prodItems, fr.item_id = ti.item_id ∧ ti.product_id ≠ k) := by
  intro db t
  refine ⟨?_, ?_, ?_⟩
  · intro r hr hcur hinact
    rw [applyScdCustomers_dimCustomers]
    have hret : retireCustomerRow t (inactiveCustomerIds db) r
        = { r with is_current := false, end_date := some (t - 1) } := by
      simp [retireCustomerRow, hcur, hinact]
    rw [← hret]
    exact List.mem_map_of_mem _ hr
  · intro r hr hcur hinact
    rw [applyScdProducts_dimProducts]
    have hret : retireProductRow t (inactiveProductIds db) r
        = { r with is_current := false, end_date := some (t - 1) } := by
      simp [retireProductRow, hcur, hinact]
    rw [← hret]
    exact List.mem_map_of_mem _ hr
  · intro k hk fr hfr
    rw [newFactSalesRows] at hfr
    obtain ⟨ti, hti, hfr⟩ := List.mem_flatMap.mp hfr
    by_cases h0 : ti.item_id ∈ factItemIds db
    · simp [itemFactContribution, h0] at hfr
    · rw [itemFactContribution, if_neg h0] at hfr
      refine ⟨ti, hti, mem_joinRowsForItem_item_id hfr, ?_⟩
      simp only [joinRowsForItem, List.mem_flatMap] at hfr
      obtain ⟨tr, htr, hfr⟩ := hfr
      obtain ⟨dc, hdc, hfr⟩ := hfr
      obtain ⟨dp, hdp, hfr⟩ := hfr
      intro hkk
      have hdp2 := List.mem_filter.mp hdp
      have hpred := hdp2.2
      simp only [Bool.and_eq_true, beq_iff_eq] at hpred
      have hfalse := hk dp hdp2.1 (by rw [hpred.1, hkk])
      rw [hfalse] at hpred
      exact Bool.false_ne_true hpred.2

/-- Claim C6, witness: retiring the sample product marks its dimension
row non-current with `end_date = today - 1`, and the subsequent fact load
over the retired store appends no row for its line items. -/
theorem retirement_and_fact_exclusion_witness :
    ({ currentDimProduct with is_current := false, end_date := some (739194 - 1) } : DimProduct)
      ∈ (applyScdProducts 739194 scdDB).1.dimProducts
    ∧ (∀ fr ∈ newFactSalesRows (applyScdProducts 739194 scdDB).1,
        ∃ ti ∈ (applyScdProducts 739194 scdDB).1.prodItems,
          fr.item_id = ti.item_id ∧ ti.product_id ≠ "PROD001") :=
  ⟨(retirement_and_fact_exclusion scdDB 739194).2.1 currentDimProduct
      (by decide) (by decide) (by decide),
    (retirement_and_fact_exclusion (applyScdProducts 739194 scdDB).1 739194).2.2
      "PROD001" (by decide)⟩

/-- Claim C10 (amended): the fact loader's already-loaded check uses the
line item's `item_id` alone — a line item contributes nothing whenever
the fact table as of the start of the statement holds any row with the
same `item_id`, even one from a different transaction; conversely a
contributing item's `item_id` was absent from that snapshot.  Across
separate runs two line items sharing an `item_id` therefore cannot both
be appended, but within one run the `NOT EXISTS` subquery reads only the
pre-statement fact table, so both are inserted in the same statement. -/
theorem fact_exclusion_by_item_id : ∀ (db : DB) (ti : ProdItem),
    (ti.item_id ∈ factItemIds db → itemFactContribution db ti = [])
    ∧ (itemFactContribution db ti ≠ [] → ti.item_id ∉ factItemIds db) := by
  intro db ti
  constructor
  · intro h
    simp [itemFactContribution, h]
  · intro hne h0
    exact hne (by simp [itemFactContribution, h0])

/-- Claim C10, witness: the line item of `TXN002` sharing `ITEM001` with
an already-loaded fact row of `TXN001` contributes nothing. -/
theorem fact_exclusion_by_item_id_witness :
    itemFactContribution loadedFactDB sampleItem2 = [] :=
  (fact_exclusion_by_item_id loadedFactDB sampleItem2).1 (by decide)

/-- Claim C10, counterexample to the claim as stated: in a single run
over `sharedItemDB`, the two line items from transactions `TXN001` and
`TXN002` that share `item_id = "ITEM001"` are both inserted, so two line
items from different transactions sharing an `item_id` do appear together
in the fact table. -/
theorem shared_item_id_both_loaded_cex :
    ((buildFactSales sharedItemDB).1.factSales.map (fun fr => (fr.transaction_id, fr.item_id)))
      = [("TXN001", "ITEM001"), ("TXN002", "ITEM001")]
    ∧ sampleItem1.transaction_id ≠ sampleItem2.transaction_id
    ∧ sampleItem1.item_id = sampleItem2.item_id := by
  refine ⟨by decide, by decide, by decide⟩

theorem civil_month_pos (z : Nat) : 1 ≤ (civilFromDays z).2.1 := by
  simp only [civilFromDays]
  split <;> omega

/-- Claim C7: over every inclusive range the date-dimension generator
emits one row per calendar day (consecutive `date_id`s), each with
day-of-week in 1..7 (1 = Monday), quarter equal to `⌈month/3⌉`, and the
weekend flag set exactly when the day-of-week is 6 or 7; over
2024-01-01..2024-01-03 it yields exactly the three rows Monday, Tuesday,
Wednesday, none flagged as weekend. -/
theorem dim_date_rows_correct : ∀ (s e : Nat), s ≤ e →
    (buildDimDateRows s e).length = e - s + 1
    ∧ (∀ i, ∀ h : i < (buildDimDateRows s e).length,
        ((buildDimDateRows s e).get ⟨i, h⟩).date_id = s + i)
    ∧ (∀ r ∈ buildDimDateRows s e,
        1 ≤ r.day_of_week ∧ r.day_of_week ≤ 7
        ∧ r.quarter = (r.month + 2) / 3
        ∧ (r.is_weekend = true ↔ (r.day_of_week = 6 ∨ r.day_of_week = 7)))
    ∧ (buildDimDateRows (daysFromCivil 2024 1 1) (daysFromCivil 2024 1 3)).map
        (fun r => (r.day_of_week, r.day_name, r.is_weekend))
        = [(1, "Monday", false), (2, "Tuesday", false), (3, "Wednesday", false)] := by
  intro s e hse
  refine ⟨?_, ?_, ?_, by decide⟩
  · simp only [buildDimDateRows, List.length_map, List.length_range]
    omega
  · intro i h
    simp [buildDimDateRows, mkDateRow]
  · intro r hr
    simp only [buildDimDateRows, List.mem_map, List.mem_range] at hr
    obtain ⟨i, hi, hr⟩ := hr
    have h7 : (s + i + 2) % 7 < 7 := Nat.mod_lt _ (by norm_num)
    have hm := civil_month_pos (s + i)
    rw [← hr]
    refine ⟨?_, ?_, ?_, ?_⟩
    · simp [mkDateRow, pandasDayOfWeek]
    · simp only [mkDateRow, pandasDayOfWeek]
      omega
    · simp only [mkDateRow]
      omega
    · simp only [mkDateRow, pandasDayOfWeek, decide_eq_true_iff]
      omega

/-- Claim C7, witness: the range 2024-01-01..2024-01-03 instantiates all
the clauses. -/
theorem dim_date_rows_correct_witness :
    (buildDimDateRows (daysFromCivil 2024 1 1) (daysFromCivil 2024 1 3)).length
      = daysFromCivil 2024 1 3 - daysFromCivil 2024 1 1 + 1
    ∧ (∀ i, ∀ h : i < (buildDimDateRows (daysFromCivil 2024 1 1) (daysFromCivil 2024 1 3)).length,
        ((buildDimDateRows (daysFromCivil 2024 1 1) (daysFromCivil 2024 1 3)).get ⟨i, h⟩).date_id
          = daysFromCivil 2024 1 1 + i)
    ∧ (∀ r ∈ buildDimDateRows (daysFromCivil 2024 1 1) (daysFromCivil 2024 1 3),
        1 ≤ r.day_of_week ∧ r.day_of_week ≤ 7
        ∧ r.quarter = (r.month + 2) / 3
        ∧ (r.is_weekend = true ↔ (r.day_of_week = 6 ∨ r.day_of_week = 7)))
    ∧ (buildDimDateRows (daysFromCivil 2024 1 1) (daysFromCivil 2024 1 3)).map
        (fun r => (r.day_of_week, r.day_name, r.is_weekend))
        = [(1, "Monday", false), (2, "Tuesday", false), (3, "Wednesday", false)] :=
  dim_date_rows_correct (daysFromCivil 2024 1 1) (daysFromCivil 2024 1 3) (by decide)

theorem mem_insertPaymentRows : ∀ (labels : List String) (dims : List PaymentRow) (sk : Nat),
    ∀ r ∈ (insertPaymentRows labels dims sk).1,
      r ∈ dims ∨ ∃ l sk0, r = mkPaymentRow sk0 l := by
  intro labels
  induction labels with
  | nil =>
    intro dims sk r hr
    left
    simpa [insertPaymentRows] using hr
  | cons l rest ih =>
    intro dims sk r hr
    rw [insertPaymentRows] at hr
    by_cases hc : (dims.any (fun x => x.payment_method_id == normalizePayment l)) = true
    · simp only [hc, if_true] at hr
      exact ih dims sk r hr
    · simp only [Bool.not_eq_true] at hc
      simp only [hc, if_false] at hr
      rcases ih (dims ++ [mkPaymentRow sk l]) (sk + 1) r hr with h | h
      · rcases List.mem_append.mp h with h2 | h2
        · exact Or.inl h2
        · exact Or.inr ⟨l, sk, List.mem_singleton.mp h2⟩
      · exact Or.inr h

theorem paymentCategory_eq (l : String) :
    paymentCategory l
      = (if l = "Credit Card" ∨ l = "Debit Card" then "Card"
        else if l = "UPI" ∨ l = "Net Banking" then "Digital"
        else if l = "Cash on Delivery" then "Cash" else "Other") := by
  by_cases h1 : l = "Credit Card"
  · subst h1; decide
  by_cases h2 : l = "Debit Card"
  · subst h2; decide
  by_cases h3 : l = "UPI"
  · subst h3; decide
  by_cases h4 : l = "Net Banking"
  · subst h4; decide
  by_cases h5 : l = "Cash on Delivery"
  · subst h5; decide
  simp [paymentCategory, h1, h2, h3, h4, h5]

/-- Claim C8: every row the reference-dimension builder inserts derives
its business key by lower-casing the raw label and replacing spaces with
underscores, and its category by the fixed mapping Card / Digital / Cash
/ Other; in particular "Net Banking" yields id "net_banking" with
category "Digital" and "Cash on Delivery" yields id "cash_on_delivery"
with category "Cash". -/
theorem payment_method_rows_correct : ∀ (db : DB),
    (∀ r ∈ (buildDimPaymentMethod db).1.dimPayment,
      r ∈ db.dimPayment ∨
        (r.payment_method_id = normalizePayment r.payment_method_name
        ∧ r.category
          = (if r.payment_method_name = "Credit Card" ∨ r.payment_method_name = "Debit Card"
              then "Card"
            else if r.payment_method_name = "UPI" ∨ r.payment_method_name = "Net Banking"
              then "Digital"
            else if r.payment_method_name = "Cash on Delivery" then "Cash" else "Other")))
    ∧ normalizePayment "Net Banking" = "net_banking"
    ∧ paymentCategory "Net Banking" = "Digital"
    ∧ normalizePayment "Cash on Delivery" = "cash_on_delivery"
    ∧ paymentCategory "Cash on Delivery" = "Cash" := by
  intro db
  refine ⟨?_, by decide, by decide, by decide, by decide⟩
  intro r hr
  have hr2 : r ∈ (insertPaymentRows ((db.stgTransactions.map (fun t => t.payment_method)).dedup)
      db.dimPayment db.nextPaymentSk).1 := hr
  rcases mem_insertPaymentRows _ db.dimPayment db.nextPaymentSk r hr2 with h | ⟨l, sk0, h⟩
  · exact Or.inl h
  · subst h
    exact Or.inr ⟨rfl, paymentCategory_eq l⟩

/-- Claim C8, witness: the row derived from "Net Banking" carries the
normalized id and the Digital category. -/
theorem payment_method_rows_correct_witness :
    mkPaymentRow 1 "Net Banking" ∈ paymentDB.dimPayment ∨
      ((mkPaymentRow 1 "Net Banking").payment_method_id
          = normalizePayment (mkPaymentRow 1 "Net Banking").payment_method_name
      ∧ (mkPaymentRow 1 "Net Banking").category
        = (if (mkPaymentRow 1 "Net Banking").payment_method_name = "Credit Card"
              ∨ (mkPaymentRow 1 "Net Banking").payment_method_name = "Debit Card"
            then "Card"
          else if (mkPaymentRow 1 "Net Banking").payment_method_name = "UPI"
              ∨ (mkPaymentRow 1 "Net Banking").payment_method_name = "Net Banking"
            then "Digital"
          else if (mkPaymentRow 1 "Net Banking").payment_method_name = "Cash on Delivery"
            then "Cash" else "Other")) :=
  (payment_method_rows_correct paymentDB).1 (mkPaymentRow 1 "Net Banking") (by decide)

/-- Claim C9: every aggregate row the product-sales builder computes
equals the SUM/COUNT-DISTINCT/AVG over the fact rows loaded at that
moment that share its grouping key; in particular over a fact table with
exactly two rows for product surrogate key 1 (line totals 30 and 20,
quantities 2 and 1, distinct transactions) the aggregate reports
total_sales 50, total_units_sold 3, transaction_count 2. -/
theorem agg_product_values_correct : ∀ (db : DB),
    (∀ r ∈ newAggProductRows db,
      r.total_sales
        = ((db.factSales.filter (fun fr => fr.product_sk == r.product_sk)).map
            (fun fr => fr.line_total)).sum
      ∧ r.total_units_sold
        = ((db.factSales.filter (fun fr => fr.product_sk == r.product_sk)).map
            (fun fr => fr.quantity)).sum
      ∧ r.transaction_count
        = (((db.factSales.filter (fun fr => fr.product_sk == r.product_sk)).map
            (fun fr => fr.transaction_id)).dedup).length
      ∧ r.avg_discount
        = ((db.factSales.filter (fun fr => fr.product_sk == r.product_sk)).map
            (fun fr => fr.discount_percentage)).sum
          / (((db.factSales.filter (fun fr => fr.product_sk == r.product_sk)).length : Nat) : Rat))
    ∧ newAggProductRows aggFactDB = [aggRowP1]
    ∧ aggRowP1.product_sk = 1
    ∧ aggRowP1.total_sales = 50
    ∧ aggRowP1.total_units_sold = 3
    ∧ aggRowP1.transaction_count = 2
    ∧ aggRowP1.avg_discount = 0 := by
  intro db
  refine ⟨?_, rfl, rfl, ?_, by decide, by decide, ?_⟩
  · intro r hr
    simp only [newAggProductRows, List.mem_map] at hr
    obtain ⟨sk, hsk, hr⟩ := hr
    subst hr
    exact ⟨rfl, rfl, rfl, rfl⟩
  · norm_num [aggRowP1, mkAggProductRow, aggFactDB, emptyDB, factRowA, factRowB]
  · norm_num [aggRowP1, mkAggProductRow, aggFactDB, emptyDB, factRowA, factRowB]

/-- Claim C9, witness: the computed aggregate row for product surrogate
key 1 over the two-row fact table satisfies the SUM/COUNT/AVG equations. -/
theorem agg_product_values_correct_witness :
    aggRowP1.total_sales
      = ((aggFactDB.factSales.filter (fun fr => fr.product_sk == aggRowP1.product_sk)).map
          (fun fr => fr.line_total)).sum
    ∧ aggRowP1.total_units_sold
      = ((aggFactDB.factSales.filter (fun fr => fr.product_sk == aggRowP1.product_sk)).map
          (fun fr => fr.quantity)).sum
    ∧ aggRowP1.transaction_count
      = (((aggFactDB.factSales.filter (fun fr => fr.product_sk == aggRowP1.product_sk)).map
          (fun fr => fr.transaction_id)).dedup).length
    ∧ aggRowP1.avg_discount
      = ((aggFactDB.factSales.filter (fun fr => fr.product_sk == aggRowP1.product_sk)).map
          (fun fr => fr.discount_percentage)).sum
        / (((aggFactDB.factSales.filter (fun fr => fr.product_sk == aggRowP1.product_sk)).length : Nat) : Rat) :=
  (agg_product_values_correct aggFactDB).1 aggRowP1 (by exact List.mem_cons_self _ _)

end Warehouse

